import Mathlib

/-!
Verification of the code-generation core in `src/func.cpp` (ispc):
`Function` construction, `Function::emitCode` (mask-aware body emission,
CPU-task parameter marshaling, Xe kernel argument-offset metadata),
`Function::GenerateIR` (variant planning), and
`TemplateInstantiation::InstantiateSymbol`.

The C++ is shallowly embedded: pure computations become Lean functions,
the stateful emission context becomes an explicit state record carrying a
trace of emission events, LLVM symbols become `Nat` identifiers, and the
`Assert` macro (fatal on failure) is modelled by `Option`-valued
constructors that return `none` exactly when an assertion would fire.
-/

/-! ## Mask values and the emission-context state (FunctionEmitContext) -/

/-- Value of the execution mask held by the emission context: either the
distinguished `LLVMMaskAllOn` constant or a dynamic LLVM value (by id). -/
inductive MaskVal where
  | allOn : MaskVal
  | dynamic : Nat → MaskVal
deriving DecidableEq

/-- Observable emission events recorded by the context model. -/
inductive TraceEvent where
  | setMask : MaskVal → TraceEvent
  | initLabels : Nat → TraceEvent
  | bodyEmit : Nat → MaskVal → TraceEvent
  | branchAllOnSomeOn : TraceEvent
  | returnInst : TraceEvent
deriving DecidableEq

/-- State of the emission context during `Function::emitCode`: the current
function mask, the identifier of the label map currently in force for goto
targets, a fresh-id allocator for label maps, and the event trace. -/
structure EmitState where
  mask : MaskVal
  labelGen : Nat
  nextLabelId : Nat
  trace : List TraceEvent
deriving DecidableEq

/-- Model of `ctx->SetFunctionMask(v)`. -/
def setFunctionMask (v : MaskVal) (s : EmitState) : EmitState :=
  { s with mask := v, trace := s.trace ++ [TraceEvent.setMask v] }

/-- Model of `ctx->InitializeLabelMap(code)`: installs a freshly created
set of goto-label basic blocks, distinct from every earlier set. -/
def initLabelMap (s : EmitState) : EmitState :=
  { s with labelGen := s.nextLabelId, nextLabelId := s.nextLabelId + 1,
           trace := s.trace ++ [TraceEvent.initLabels s.nextLabelId] }

/-- Model of `code->EmitCode(ctx)`: the body is a black box that observes
the current label map and mask and may itself mutate the mask
(`bodyMaskEffect`). -/
def emitBodyCode (bodyMaskEffect : MaskVal → MaskVal) (s : EmitState) : EmitState :=
  { s with mask := bodyMaskEffect s.mask,
           trace := s.trace ++ [TraceEvent.bodyEmit s.labelGen s.mask] }

/-- Model of `ctx->ReturnInst()`. -/
def returnInst (s : EmitState) : EmitState :=
  { s with trace := s.trace ++ [TraceEvent.returnInst] }

/-- Body emission of `Function::emitCode` when `checkMask` is true
(func.cpp lines 500-536): capture the mask, initialize goto labels for the
all-on copy, branch, emit the all-on copy (forcing the mask all-on unless
`disableMaskAllOnOptimizations`), then restore the captured mask, install a
second, fresh label map and emit the mixed-mask copy.  The two
`fallsThrough` flags model whether `ctx->GetCurrentBasicBlock()` is still
live after each copy, in which case a terminal return is inserted. -/
def emitMaskCheckedBody (disableMaskAllOnOptimizations : Bool)
    (bodyMaskEffect : MaskVal → MaskVal)
    (allOnFallsThrough someOnFallsThrough : Bool) (s0 : EmitState) : EmitState :=
  let mask := s0.mask
  let s1 := initLabelMap s0
  let s2 := { s1 with trace := s1.trace ++ [TraceEvent.branchAllOnSomeOn] }
  let s3 := if disableMaskAllOnOptimizations then s2 else setFunctionMask MaskVal.allOn s2
  let s4 := emitBodyCode bodyMaskEffect s3
  let s5 := if allOnFallsThrough then returnInst s4 else s4
  let s6 := setFunctionMask mask s5
  let s7 := initLabelMap s6
  let s8 := emitBodyCode bodyMaskEffect s7
  if someOnFallsThrough then returnInst s8 else s8

/-- Body emission of `Function::emitCode` when `checkMask` is false
(func.cpp lines 537-542): one label map, one copy of the body. -/
def emitUncheckedBody (bodyMaskEffect : MaskVal → MaskVal) (s0 : EmitState) : EmitState :=
  emitBodyCode bodyMaskEffect (initLabelMap s0)

/-- The body-emission step of `Function::emitCode`, dispatching on the
`checkMask` decision. -/
def emitFunctionBody (checkMask disableMaskAllOnOptimizations : Bool)
    (bodyMaskEffect : MaskVal → MaskVal)
    (allOnFallsThrough someOnFallsThrough : Bool) (s0 : EmitState) : EmitState :=
  if checkMask then
    emitMaskCheckedBody disableMaskAllOnOptimizations bodyMaskEffect
      allOnFallsThrough someOnFallsThrough s0
  else
    emitUncheckedBody bodyMaskEffect s0

/-- Extract, in order, the (label-map id, entry mask) pairs of the body
copies emitted in a trace. -/
def bodyEmits : List TraceEvent → List (Nat × MaskVal)
  | [] => []
  | TraceEvent.bodyEmit g m :: rest => (g, m) :: bodyEmits rest
  | _ :: rest => bodyEmits rest

/-! ## Function types and the checkMask decision -/

/-- One declared parameter of a function type: its name and whether its
type is a `ReferenceType`. -/
structure ParamInfo where
  name : String
  isRef : Bool
deriving DecidableEq

/-- The qualifier content of an ispc `FunctionType` consumed by func.cpp. -/
structure FunctionTypeM where
  params : List ParamInfo
  isTask : Bool
  isUnmasked : Bool
  isExported : Bool
  isExternC : Bool
  isExternSYCL : Bool
  isISPCExternal : Bool
  isISPCKernel : Bool
deriving DecidableEq

/-- Global/target state consulted by the `checkMask` decision in
`Function::emitCode` (func.cpp lines 488-498). -/
structure EmitEnv where
  isXeTarget : Bool
  maskingIsFree : Bool
  disableCoherentControlFlow : Bool
deriving DecidableEq

/-- Modelled from the spec: the fixed cost threshold
`CHECK_MASK_AT_FUNCTION_START_COST` compared against the body cost
estimate; the constant is defined outside the examined sources and no
claim depends on its numeric value. -/
def CHECK_MASK_AT_FUNCTION_START_COST : Int := 16

/-- The `checkMask` decision of `Function::emitCode` (func.cpp lines
488-498): `(!isXeTarget && isTask) || (!alwaysInline && cost > threshold)`,
then conjoined with not-unmasked, masking-not-free, and
coherent-control-flow optimization not disabled. -/
def computeCheckMask (env : EmitEnv) (ftype : FunctionTypeM)
    (alwaysInlineAttr : Bool) (costEstimate : Int) : Bool :=
  let checkMask :=
    (!env.isXeTarget && ftype.isTask) ||
      (!alwaysInlineAttr && decide (costEstimate > CHECK_MASK_AT_FUNCTION_START_COST))
  let checkMask := checkMask && !ftype.isUnmasked
  let checkMask := checkMask && !env.maskingIsFree
  let checkMask := checkMask && !env.disableCoherentControlFlow
  checkMask

/-! ## CPU-task parameter marshaling (func.cpp lines 312-338) -/

/-- The fixed roles, in consumption order, of the generated signature
parameters read off `function->arg_begin()` for a task function on a
non-Xe (CPU) target. -/
def cpuTaskSignatureParamNames : List String :=
  ["structParamPtr", "threadIndex", "threadCount", "taskIndex", "taskCount",
   "taskIndex0", "taskIndex1", "taskIndex2", "taskCount0", "taskCount1", "taskCount2"]

/-- Consumption of the generated signature by the CPU-task branch of
`Function::emitCode`: eleven successive `argIter++` reads binding, in
order, the packed-argument-structure pointer, thread index/count, flat
task index/count and the three-dimensional task index/count scalars.
Returns the role-to-value bindings and the unconsumed tail, or `none`
when the signature is too short (the iterator would run off the end). -/
def cpuTaskConsumeSignature (signature : List Nat) :
    Option (List (String × Nat) × List Nat) :=
  match signature with
  | structParamPtr :: threadIndex :: threadCount :: taskIndex :: taskCount ::
      taskIndex0 :: taskIndex1 :: taskIndex2 ::
      taskCount0 :: taskCount1 :: taskCount2 :: rest =>
    some ([("structParamPtr", structParamPtr), ("threadIndex", threadIndex),
           ("threadCount", threadCount), ("taskIndex", taskIndex),
           ("taskCount", taskCount), ("taskIndex0", taskIndex0),
           ("taskIndex1", taskIndex1), ("taskIndex2", taskIndex2),
           ("taskCount0", taskCount0), ("taskCount1", taskCount1),
           ("taskCount2", taskCount2)], rest)
  | _ => none

/-! ## Function construction (Function::Function, func.cpp lines 163-212) -/

/-- The symbol-table collaborator: name-to-symbol-id lookup in the scope
being closed when the `Function` is constructed. -/
structure SymbolTable where
  lookupVariable : String → Option Nat

/-- What construction records for one parameter position: the looked-up
symbol (possibly absent for anonymous parameters) and whether
`paramSym->parentFunction = this` was executed for it. -/
structure ArgBinding where
  sym : Option Nat
  parentBound : Bool
deriving DecidableEq

/-- One iteration of the parameter-binding loop: look the parameter up by
name; a failed lookup is tolerated only for the anonymous-parameter naming
convention (`strncmp(paramName, "__anon_parameter_", 17) == 0`), otherwise
the assertion fires; the parent-function back-reference is installed only
when the symbol is present and the parameter type is not a reference. -/
def bindParam (tab : SymbolTable) (p : ParamInfo) : Option ArgBinding :=
  match tab.lookupVariable p.name with
  | none =>
    if String.startsWith p.name "__anon_parameter_" then
      some { sym := none, parentBound := false }
    else
      none
  | some s => some { sym := some s, parentBound := !p.isRef }

/-- The whole parameter-binding loop of the constructor. -/
def bindParams (tab : SymbolTable) : List ParamInfo → Option (List ArgBinding)
  | [] => some []
  | p :: ps =>
    match bindParam tab p, bindParams tab ps with
    | some a, some rest => some (a :: rest)
    | _, _ => none

/-- The ten thread/task index-and-count symbol slots of a `Function`. -/
structure TaskSymbols where
  threadIndexSym : Option Nat
  threadCountSym : Option Nat
  taskIndexSym : Option Nat
  taskCountSym : Option Nat
  taskIndexSym0 : Option Nat
  taskIndexSym1 : Option Nat
  taskIndexSym2 : Option Nat
  taskCountSym0 : Option Nat
  taskCountSym1 : Option Nat
  taskCountSym2 : Option Nat
deriving DecidableEq

/-- The task branch of the constructor: resolve all ten thread/task
symbols, each lookup guarded by an `Assert` (modelled as `none` on
failure). -/
def lookupTaskSymbols (tab : SymbolTable) : Option TaskSymbols := do
  let threadIndex ← tab.lookupVariable "threadIndex"
  let threadCount ← tab.lookupVariable "threadCount"
  let taskIndex ← tab.lookupVariable "taskIndex"
  let taskCount ← tab.lookupVariable "taskCount"
  let taskIndex0 ← tab.lookupVariable "taskIndex0"
  let taskIndex1 ← tab.lookupVariable "taskIndex1"
  let taskIndex2 ← tab.lookupVariable "taskIndex2"
  let taskCount0 ← tab.lookupVariable "taskCount0"
  let taskCount1 ← tab.lookupVariable "taskCount1"
  let taskCount2 ← tab.lookupVariable "taskCount2"
  pure { threadIndexSym := some threadIndex, threadCountSym := some threadCount,
         taskIndexSym := some taskIndex, taskCountSym := some taskCount,
         taskIndexSym0 := some taskIndex0, taskIndexSym1 := some taskIndex1,
         taskIndexSym2 := some taskIndex2, taskCountSym0 := some taskCount0,
         taskCountSym1 := some taskCount1, taskCountSym2 := some taskCount2 }

/-- The non-task branch of the constructor: all ten slots set to null. -/
def noTaskSymbols : TaskSymbols :=
  { threadIndexSym := none, threadCountSym := none,
    taskIndexSym := none, taskCountSym := none,
    taskIndexSym0 := none, taskIndexSym1 := none, taskIndexSym2 := none,
    taskCountSym0 := none, taskCountSym1 := none, taskCountSym2 := none }

/-- The symbol-binding content of a constructed `Function`. -/
structure FunctionObj where
  maskSymbol : Nat
  args : List ArgBinding
  taskSyms : TaskSymbols
deriving DecidableEq

/-- Model of `Function::Function` (func.cpp lines 163-212): resolve
`__mask` (assert non-null), bind every declared parameter, and either
resolve the ten thread/task symbols (task functions) or null them all
(non-task functions).  `none` models a fired `Assert`. -/
def constructFunction (tab : SymbolTable) (ftype : FunctionTypeM) : Option FunctionObj := do
  let maskSymbol ← tab.lookupVariable "__mask"
  let args ← bindParams tab ftype.params
  if ftype.isTask then
    let ts ← lookupTaskSymbols tab
    pure { maskSymbol := maskSymbol, args := args, taskSyms := ts }
  else
    pure { maskSymbol := maskSymbol, args := args, taskSyms := noTaskSymbols }

/-! ## Variant planning (Function::GenerateIR, func.cpp lines 644-780) -/

/-- Global/target state consulted by `Function::GenerateIR`. -/
structure GenEnv where
  isXeTarget : Bool
  mangleFunctionsWithTarget : Bool
deriving DecidableEq

/-- Per-function inputs of one `GenerateIR` run.  `symPresent` models
`sym != NULL`; `functionHasDefinition` models `function->empty() == false`;
`nameCollides` models `appFunction->getName() != functionName` (LLVM
renamed the new function because the name was taken);
`internalEmitErrors` / `appEmitErrors` are the number of diagnostics the
two `emitCode` runs issue through the shared error channel. -/
structure GenInput where
  symPresent : Bool
  functionHasDefinition : Bool
  ftype : FunctionTypeM
  noinlineAttr : Bool
  alwaysInlineAttr : Bool
  nameCollides : Bool
  internalEmitErrors : Nat
  appEmitErrors : Nat
deriving DecidableEq

/-- Observable outcome of one `GenerateIR` run.  `errorsAfterInternal` is
the value of `m->errorCount` at the `m->errorCount == 0` check following
the internal-form phase, or `none` when an early return prevents the run
from ever reaching that check. -/
structure GenResult where
  errorCount : Nat
  redefErrorReported : Bool
  syclErrorReported : Bool
  internalEmitted : Bool
  errorsAfterInternal : Option Nat
  appCreated : Bool
  appNoMaskParam : Bool
  appUnmangledName : Bool
  appErased : Bool
  appEmitted : Bool
  exportedFunctionRecorded : Bool
  markedAlwaysInline : Bool
deriving DecidableEq

/-- A `GenResult` in which nothing has happened yet beyond carrying the
error count. -/
def GenResult.init (ec : Nat) : GenResult :=
  { errorCount := ec, redefErrorReported := false, syclErrorReported := false,
    internalEmitted := false, errorsAfterInternal := none, appCreated := false,
    appNoMaskParam := false, appUnmangledName := false, appErased := false,
    appEmitted := false, exportedFunctionRecorded := false,
    markedAlwaysInline := false }

/-- Model of `Function::GenerateIR` (func.cpp lines 644-780): skip silently
on a null symbol; report (and stop at) a redefinition of an already-defined
function; report (and stop at) an `extern "SYCL"` definition; emit the
internal form unless suppressed (Xe kernels; extern "C"/"SYCL" under
multi-target mangling); then, if the error count is zero, either create the
application-callable variant (no mask parameter — `LLVMFunctionType(ctx,
true)`; unmangled name — `GetFunctionMangledName(true)`) for
export/extern-C/extern-SYCL/external/kernel functions, erasing it silently
on a name collision and otherwise emitting it and recording it as
`sym->exportedFunction` when the error count is still zero, or, for other
functions on Xe, mark the internal form always-inline unless it opted
out. -/
def generateIR (env : GenEnv) (inp : GenInput) (ec : Nat) : GenResult :=
  if inp.symPresent = false then GenResult.init ec
  else if inp.functionHasDefinition then
    { GenResult.init (ec + 1) with redefErrorReported := true }
  else if inp.ftype.isExternSYCL then
    { GenResult.init (ec + 1) with syclErrorReported := true }
  else
    let internalEmitted :=
      if env.isXeTarget then !inp.ftype.isISPCKernel
      else !((inp.ftype.isExternC || inp.ftype.isExternSYCL) && env.mangleFunctionsWithTarget)
    let e1 := ec + (if internalEmitted then inp.internalEmitErrors else 0)
    if e1 = 0 then
      if inp.ftype.isExported || inp.ftype.isExternC || inp.ftype.isExternSYCL ||
          inp.ftype.isISPCExternal || inp.ftype.isISPCKernel then
        if inp.nameCollides then
          { GenResult.init e1 with
            internalEmitted := internalEmitted,
            errorsAfterInternal := some e1, appCreated := true,
            appNoMaskParam := true, appUnmangledName := true, appErased := true }
        else
          let e2 := e1 + inp.appEmitErrors
          { GenResult.init e2 with
            internalEmitted := internalEmitted,
            errorsAfterInternal := some e1, appCreated := true,
            appNoMaskParam := true, appUnmangledName := true, appEmitted := true,
            exportedFunctionRecorded := e2 == 0 }
      else
        { GenResult.init e1 with
          internalEmitted := internalEmitted,
          errorsAfterInternal := some e1,
          markedAlwaysInline :=
            env.isXeTarget && !(inp.noinlineAttr || inp.alwaysInlineAttr) }
    else
      { GenResult.init e1 with
        internalEmitted := internalEmitted,
        errorsAfterInternal := some e1 }

/-! ## Xe kernel argument-offset metadata (func.cpp lines 591-619) -/

/-- Model of `llvm::alignTo(Value, Align)`: the smallest multiple of
`Align` that is not smaller than `Value`, computed as in LLVM by
`(Value + Align - 1) / Align * Align`. -/
def alignTo (value align : Nat) : Nat := (value + align - 1) / align * align

/-- The layout facts about one kernel argument's LLVM type consulted by
the offset loop: `getScalarSizeInBits`, `getPrimitiveSizeInBits`, and
whether the type is an `llvm::VectorType`. -/
structure KernelArgType where
  scalarSizeInBits : Nat
  primitiveSizeInBits : Nat
  isVector : Bool
deriving DecidableEq

/-- First half of one iteration of the offset loop: align the running
offset to the argument's scalar byte size (when non-zero). -/
def kernelArgScalarAligned (offset : Nat) (t : KernelArgType) : Nat :=
  let bytes := t.scalarSizeInBits / 8
  if bytes != 0 then alignTo offset bytes else offset

/-- Second half of one iteration: for a vector argument whose
offset-plus-size would cross a GRF (register-file granule) boundary —
`(offset & (grf_size - 1)) + bytes > grf_size` — pad the offset up to the
next granule boundary. -/
def kernelArgAlignedOffset (grfSize offset : Nat) (t : KernelArgType) : Nat :=
  let offset := kernelArgScalarAligned offset t
  if t.isVector then
    let bytes := t.primitiveSizeInBits / 8
    if (offset &&& (grfSize - 1)) + bytes > grfSize then alignTo offset grfSize
    else offset
  else offset

/-- Byte size accumulated for one argument: the full vector size for
vectors, the scalar size otherwise (the loop reassigns `bytes` inside the
vector branch before `offset += bytes`). -/
def kernelArgSizeBytes (t : KernelArgType) : Nat :=
  if t.isVector then t.primitiveSizeInBits / 8 else t.scalarSizeInBits / 8

/-- One full iteration of the offset loop: the running offset after this
argument. -/
def kernelArgStep (grfSize offset : Nat) (t : KernelArgType) : Nat :=
  kernelArgAlignedOffset grfSize offset t + kernelArgSizeBytes t

/-- Offsets assigned to successive kernel arguments starting from a given
running offset. -/
def kernelArgOffsetsFrom (grfSize : Nat) : Nat → List KernelArgType → List Nat
  | _, [] => []
  | offset, t :: ts =>
    kernelArgAlignedOffset grfSize offset t ::
      kernelArgOffsetsFrom grfSize (kernelArgStep grfSize offset t) ts

/-- The argument byte offsets computed by the Xe kernel metadata loop: the
running offset starts at the fixed 32-byte base (`unsigned int offset =
32`). -/
def kernelArgOffsets (grfSize : Nat) (argTypes : List KernelArgType) : List Nat :=
  kernelArgOffsetsFrom grfSize 32 argTypes

/-! ## TemplateInstantiation::InstantiateSymbol (func.cpp lines 851-879) -/

/-- The fields of an original `Symbol` read by `InstantiateSymbol`.  Types,
constant values and storage are abstracted to identifiers. -/
structure SrcSymbol where
  id : Nat
  name : String
  pos : Nat
  typeId : Nat
  storageClass : Nat
  constValue : Option Nat
  varyingCFDepth : Nat
  storageInfo : Option Nat
deriving DecidableEq

/-- An instantiated symbol produced by `InstantiateSymbol`.  Its `id` is
its object identity (freshly allocated on construction). -/
structure InstSymbol where
  id : Nat
  name : String
  pos : Nat
  typeId : Nat
  storageClass : Nat
  constValue : Option Nat
  varyingCFDepth : Nat
  parentFunction : Option Nat
  storageInfo : Option Nat
deriving DecidableEq

/-- State of one `TemplateInstantiation`: the `symMap` memoization map
keyed by original-symbol identity, and an allocator for fresh instantiated
symbols. -/
structure InstState where
  symMap : List (Nat × InstSymbol)
  nextId : Nat
deriving DecidableEq

/-- Lookup in the memoization map (`symMap.find(sym)`). -/
def findInst : List (Nat × InstSymbol) → Nat → Option InstSymbol
  | [], _ => none
  | (k, v) :: rest, key => if k = key then some v else findInst rest key

/-- Model of `TemplateInstantiation::InstantiateSymbol`: `nullptr` maps to
`nullptr` untouched; a memoized original returns its recorded copy;
otherwise a new symbol is constructed sharing the original's name,
position, storage class, recursively instantiated constant value,
control-flow-varying depth and storage location, with its type resolved
against the bindings (`resolveDependence`), no parent function yet, and
the pair is recorded in `symMap`. -/
def instantiateSymbol (resolveDependence : Nat → Nat) (instantiateConst : Nat → Nat)
    (st : InstState) (sym : Option SrcSymbol) : Option InstSymbol × InstState :=
  match sym with
  | none => (none, st)
  | some s =>
    match findInst st.symMap s.id with
    | some t => (some t, st)
    | none =>
      let instSym : InstSymbol :=
        { id := st.nextId, name := s.name, pos := s.pos,
          typeId := resolveDependence s.typeId, storageClass := s.storageClass,
          constValue := s.constValue.map instantiateConst,
          varyingCFDepth := s.varyingCFDepth, parentFunction := none,
          storageInfo := s.storageInfo }
      (some instSym, { symMap := (s.id, instSym) :: st.symMap, nextId := st.nextId + 1 })

/-! ## Helper lemmas -/

theorem bodyEmits_append (xs ys : List TraceEvent) :
    bodyEmits (xs ++ ys) = bodyEmits xs ++ bodyEmits ys := by
  induction xs with
  | nil => rfl
  | cons x rest ih => cases x <;> simp [bodyEmits, ih]

theorem alignTo_mod (v a : Nat) : alignTo v a % a = 0 := Nat.mul_mod_left _ _

theorem le_alignTo (v a : Nat) (ha : 0 < a) : v ≤ alignTo v a := by
  have h1 : a * ((v + a - 1) / a) + (v + a - 1) % a = v + a - 1 := Nat.div_add_mod _ _
  have h2 : (v + a - 1) % a < a := Nat.mod_lt _ ha
  unfold alignTo
  rw [Nat.mul_comm]
  omega

theorem alignTo_lt_add (v a : Nat) (ha : 0 < a) : alignTo v a < v + a := by
  have h1 : a * ((v + a - 1) / a) + (v + a - 1) % a = v + a - 1 := Nat.div_add_mod _ _
  unfold alignTo
  rw [Nat.mul_comm]
  omega

/-! ## Claims -/

/-- C10: calling `InstantiateSymbol` with a null symbol pointer returns
null and leaves the instantiation's memoization map (indeed the whole
instantiation state) unchanged. -/
theorem instantiateSymbol_null_id (resolveDependence instantiateConst : Nat → Nat)
    (st : InstState) :
    instantiateSymbol resolveDependence instantiateConst st none = (none, st) := rfl

/-- C7: within one `TemplateInstantiation`, a second `InstantiateSymbol`
call on the same original symbol returns exactly the result of the first
call — the identical instantiated symbol — and leaves the state unchanged
(identity-preserving memoization). -/
theorem instantiateSymbol_memoized_idempotent
    (resolveDependence instantiateConst : Nat → Nat) (st : InstState) (s : SrcSymbol) :
    instantiateSymbol resolveDependence instantiateConst
        (instantiateSymbol resolveDependence instantiateConst st (some s)).2 (some s) =
      instantiateSymbol resolveDependence instantiateConst st (some s) := by
  unfold instantiateSymbol
  cases h : findInst st.symMap s.id with
  | some t => simp [h]
  | none => simp [h, findInst]

/-- C2: `checkMask` is true iff ((the function is a task on a non-Xe
(CPU) target) or (it is not always-inline and the cost estimate exceeds
the fixed threshold)) and the type is not unmasked and the target does not
make masking free and coherent-control-flow optimization is not globally
disabled. -/
theorem checkMask_decision_iff (env : EmitEnv) (ftype : FunctionTypeM)
    (alwaysInlineAttr : Bool) (costEstimate : Int) :
    computeCheckMask env ftype alwaysInlineAttr costEstimate = true ↔
      (((env.isXeTarget = false ∧ ftype.isTask = true) ∨
        (alwaysInlineAttr = false ∧
          costEstimate > CHECK_MASK_AT_FUNCTION_START_COST)) ∧
       ftype.isUnmasked = false ∧ env.maskingIsFree = false ∧
       env.disableCoherentControlFlow = false) := by
  simp [computeCheckMask, Bool.and_eq_true, Bool.or_eq_true, Bool.not_eq_true',
    decide_eq_true_eq, and_assoc]

/-- C1: under `checkMask = true`, `Function::emitCode` emits exactly two
copies of the body: the "some on" copy runs with the mask set to the
value read from the context immediately before the all-on/some-on branch
(`s0.mask` — never the all-on override), and against a goto-label map
distinct from the one the "all on" copy used. -/
theorem maskCheck_someOn_restores_mask_fresh_labels
    (disableMaskAllOnOptimizations allOnFallsThrough someOnFallsThrough : Bool)
    (bodyMaskEffect : MaskVal → MaskVal) (s0 : EmitState) :
    ∃ gAllOn mAllOn gSomeOn,
      bodyEmits (emitFunctionBody true disableMaskAllOnOptimizations bodyMaskEffect
          allOnFallsThrough someOnFallsThrough s0).trace =
        bodyEmits s0.trace ++ [(gAllOn, mAllOn), (gSomeOn, s0.mask)] ∧
      gAllOn ≠ gSomeOn := by
  refine ⟨s0.nextLabelId,
    if disableMaskAllOnOptimizations then s0.mask else MaskVal.allOn,
    s0.nextLabelId + 1, ?_, by omega⟩
  cases disableMaskAllOnOptimizations <;> cases allOnFallsThrough <;>
    cases someOnFallsThrough <;>
    simp [emitFunctionBody, emitMaskCheckedBody, initLabelMap, setFunctionMask,
      emitBodyCode, returnInst, bodyEmits_append, bodyEmits]

/-- C3 counterexample: the fixed CPU-task signature role list —
struct-pointer, threadIndex, threadCount, taskIndex, taskCount,
taskIndex0-2, taskCount0-2, exactly as read off the generated signature by
`Function::emitCode` — has 11 entries, not 13. -/
theorem cpuTask_signature_not_thirteen :
    cpuTaskSignatureParamNames.length = 11 ∧
    cpuTaskSignatureParamNames.length ≠ 13 := by decide

/-- C3 (amended): for every task function emitted on a CPU (non-Xe)
target, the generated signature carries exactly 11 parameters in the fixed
order struct-pointer, threadIndex, threadCount, taskIndex, taskCount,
taskIndex0-2, taskCount0-2 (a pointer to the packed argument structure
followed by the ten thread/task index-and-count scalars): the marshaling
consumes exactly 11 leading parameters, binding them to exactly those
roles in exactly that order. -/
theorem cpuTask_signature_eleven_params (signature : List Nat)
    (bound : List (String × Nat)) (rest : List Nat)
    (h : cpuTaskConsumeSignature signature = some (bound, rest)) :
    bound.map Prod.fst = cpuTaskSignatureParamNames ∧ bound.length = 11 ∧
    signature.length = 11 + rest.length := by
  rcases signature with _ | ⟨a0, _ | ⟨a1, _ | ⟨a2, _ | ⟨a3, _ | ⟨a4, _ | ⟨a5,
    _ | ⟨a6, _ | ⟨a7, _ | ⟨a8, _ | ⟨a9, _ | ⟨a10, tail⟩⟩⟩⟩⟩⟩⟩⟩⟩⟩⟩ <;>
    simp [cpuTaskConsumeSignature] at h
  obtain ⟨hb, hr⟩ := h
  subst hb
  subst hr
  simp [cpuTaskSignatureParamNames]
  omega

/-- C3 witness: the amended theorem applied to a concrete 11-element
signature. -/
theorem cpuTask_signature_eleven_params_witness :
    ([("structParamPtr", 0), ("threadIndex", 1), ("threadCount", 2),
      ("taskIndex", 3), ("taskCount", 4), ("taskIndex0", 5), ("taskIndex1", 6),
      ("taskIndex2", 7), ("taskCount0", 8), ("taskCount1", 9),
      ("taskCount2", 10)] : List (String × Nat)).map Prod.fst =
        cpuTaskSignatureParamNames ∧
    ([("structParamPtr", 0), ("threadIndex", 1), ("threadCount", 2),
      ("taskIndex", 3), ("taskCount", 4), ("taskIndex0", 5), ("taskIndex1", 6),
      ("taskIndex2", 7), ("taskCount0", 8), ("taskCount1", 9),
      ("taskCount2", 10)] : List (String × Nat)).length = 11 ∧
    ([0, 1, 2, 3, 4, 5, 6, 7, 8, 9, 10] : List Nat).length =
      11 + ([] : List Nat).length :=
  cpuTask_signature_eleven_params [0, 1, 2, 3, 4, 5, 6, 7, 8, 9, 10] _ [] rfl

theorem lookupTaskSymbols_all_some (tab : SymbolTable) (ts : TaskSymbols)
    (h : lookupTaskSymbols tab = some ts) :
    ts.threadIndexSym.isSome = true ∧ ts.threadCountSym.isSome = true ∧
    ts.taskIndexSym.isSome = true ∧ ts.taskCountSym.isSome = true ∧
    ts.taskIndexSym0.isSome = true ∧ ts.taskIndexSym1.isSome = true ∧
    ts.taskIndexSym2.isSome = true ∧ ts.taskCountSym0.isSome = true ∧
    ts.taskCountSym1.isSome = true ∧ ts.taskCountSym2.isSome = true := by
  simp only [lookupTaskSymbols, Option.bind_eq_bind, Option.bind_eq_some,
    Option.pure_def, Option.some_inj] at h
  obtain ⟨a, -, b, -, c, -, d, -, e, -, f, -, g, -, i, -, j, -, k, -, hts⟩ := h
  subst hts
  simp

theorem constructFunction_parts (tab : SymbolTable) (ftype : FunctionTypeM)
    (f : FunctionObj) (h : constructFunction tab ftype = some f) :
    bindParams tab ftype.params = some f.args ∧
    (ftype.isTask = true → lookupTaskSymbols tab = some f.taskSyms) ∧
    (ftype.isTask = false → f.taskSyms = noTaskSymbols) := by
  simp only [constructFunction, Option.bind_eq_bind, Option.bind_eq_some,
    Option.pure_def] at h
  obtain ⟨msk, -, args, hargs, hrest⟩ := h
  cases ht : ftype.isTask with
  | true =>
    rw [ht] at hrest
    simp only [if_true, Option.bind_eq_bind, Option.bind_eq_some, Option.some_inj,
      reduceIte] at hrest
    obtain ⟨ts, hts, hf⟩ := hrest
    subst hf
    exact ⟨hargs, fun _ => hts, fun hfalse => by simp at hfalse⟩
  | false =>
    rw [ht] at hrest
    simp only [Option.some_inj, reduceIte, Bool.false_eq_true, if_false] at hrest
    subst hrest
    exact ⟨hargs, fun htrue => by simp at htrue, fun _ => rfl⟩

/-- C4: after successful construction, a task function has all ten
thread/task index-and-count symbols bound non-null, and a non-task
function has all ten null. -/
theorem construct_taskSymbols_iff_task (tab : SymbolTable) (ftype : FunctionTypeM)
    (f : FunctionObj) (h : constructFunction tab ftype = some f) :
    (ftype.isTask = true →
      f.taskSyms.threadIndexSym.isSome = true ∧
      f.taskSyms.threadCountSym.isSome = true ∧
      f.taskSyms.taskIndexSym.isSome = true ∧
      f.taskSyms.taskCountSym.isSome = true ∧
      f.taskSyms.taskIndexSym0.isSome = true ∧
      f.taskSyms.taskIndexSym1.isSome = true ∧
      f.taskSyms.taskIndexSym2.isSome = true ∧
      f.taskSyms.taskCountSym0.isSome = true ∧
      f.taskSyms.taskCountSym1.isSome = true ∧
      f.taskSyms.taskCountSym2.isSome = true) ∧
    (ftype.isTask = false →
      f.taskSyms.threadIndexSym = none ∧ f.taskSyms.threadCountSym = none ∧
      f.taskSyms.taskIndexSym = none ∧ f.taskSyms.taskCountSym = none ∧
      f.taskSyms.taskIndexSym0 = none ∧ f.taskSyms.taskIndexSym1 = none ∧
      f.taskSyms.taskIndexSym2 = none ∧ f.taskSyms.taskCountSym0 = none ∧
      f.taskSyms.taskCountSym1 = none ∧ f.taskSyms.taskCountSym2 = none) := by
  obtain ⟨-, htask, hnotask⟩ := constructFunction_parts tab ftype f h
  constructor
  · intro ht
    exact lookupTaskSymbols_all_some tab f.taskSyms (htask ht)
  · intro ht
    rw [hnotask ht]
    simp [noTaskSymbols]

/-- C4 witness: constructing a task function against a total symbol table
succeeds and exhibits the invariant. -/
theorem construct_taskSymbols_iff_task_witness :
    ((true : Bool) = true →
      (some 0 : Option Nat).isSome = true ∧ (some 0 : Option Nat).isSome = true ∧
      (some 0 : Option Nat).isSome = true ∧ (some 0 : Option Nat).isSome = true ∧
      (some 0 : Option Nat).isSome = true ∧ (some 0 : Option Nat).isSome = true ∧
      (some 0 : Option Nat).isSome = true ∧ (some 0 : Option Nat).isSome = true ∧
      (some 0 : Option Nat).isSome = true ∧ (some 0 : Option Nat).isSome = true) ∧
    ((true : Bool) = false →
      (some 0 : Option Nat) = none ∧ (some 0 : Option Nat) = none ∧
      (some 0 : Option Nat) = none ∧ (some 0 : Option Nat) = none ∧
      (some 0 : Option Nat) = none ∧ (some 0 : Option Nat) = none ∧
      (some 0 : Option Nat) = none ∧ (some 0 : Option Nat) = none ∧
      (some 0 : Option Nat) = none ∧ (some 0 : Option Nat) = none) :=
  construct_taskSymbols_iff_task ⟨fun _ => some 0⟩
    ⟨[], true, false, false, false, false, false, false⟩
    ⟨0, [], ⟨some 0, some 0, some 0, some 0, some 0, some 0, some 0, some 0,
      some 0, some 0⟩⟩ rfl

theorem bindParam_parent_rule (tab : SymbolTable) (p : ParamInfo) (a : ArgBinding)
    (h : bindParam tab p = some a) :
    (p.isRef = true → a.parentBound = false) ∧
    ((a.sym.isSome = true ∧ p.isRef = false) → a.parentBound = true) := by
  unfold bindParam at h
  cases hl : tab.lookupVariable p.name with
  | none =>
    rw [hl] at h
    by_cases hp : String.startsWith p.name "__anon_parameter_" <;> simp [hp] at h
    subst h
    simp
  | some s =>
    rw [hl] at h
    simp only [Option.some_inj] at h
    subst h
    cases hr : p.isRef <;> simp [hr]

theorem bindParams_rule (tab : SymbolTable) :
    ∀ (ps : List ParamInfo) (args : List ArgBinding),
      bindParams tab ps = some args →
      args.length = ps.length ∧
      ∀ i (hi : i < ps.length) (hj : i < args.length),
        ((ps.get ⟨i, hi⟩).isRef = true → (args.get ⟨i, hj⟩).parentBound = false) ∧
        (((args.get ⟨i, hj⟩).sym.isSome = true ∧ (ps.get ⟨i, hi⟩).isRef = false) →
          (args.get ⟨i, hj⟩).parentBound = true) := by
  intro ps
  induction ps with
  | nil =>
    intro args h
    simp only [bindParams, Option.some_inj] at h
    subst h
    exact ⟨rfl, fun i hi => absurd hi (by simp)⟩
  | cons p rest ih =>
    intro args h
    unfold bindParams at h
    cases hb : bindParam tab p with
    | none => rw [hb] at h; simp at h
    | some a =>
      rw [hb] at h
      cases hr : bindParams tab rest with
      | none => rw [hr] at h; simp at h
      | some l =>
        rw [hr] at h
        simp only [Option.some_inj] at h
        subst h
        obtain ⟨hlen, hget⟩ := ih l hr
        refine ⟨by simp [hlen], ?_⟩
        intro i hi hj
        cases i with
        | zero => exact bindParam_parent_rule tab p a hb
        | succ n =>
          exact hget n (by simpa using hi) (by simpa using hj)

/-- C6: after successful construction, the parameter symbol sequence has
exactly the declared parameter count; a reference-typed parameter never
receives the parent-function back-reference, and a present (non-null)
parameter symbol of non-reference type always does. -/
theorem construct_args_invariant (tab : SymbolTable) (ftype : FunctionTypeM)
    (f : FunctionObj) (h : constructFunction tab ftype = some f) :
    f.args.length = ftype.params.length ∧
    ∀ i (hi : i < ftype.params.length) (hj : i < f.args.length),
      ((ftype.params.get ⟨i, hi⟩).isRef = true →
        (f.args.get ⟨i, hj⟩).parentBound = false) ∧
      (((f.args.get ⟨i, hj⟩).sym.isSome = true ∧
          (ftype.params.get ⟨i, hi⟩).isRef = false) →
        (f.args.get ⟨i, hj⟩).parentBound = true) := by
  obtain ⟨hargs, -, -⟩ := constructFunction_parts tab ftype f h
  exact bindParams_rule tab ftype.params f.args hargs

/-- C6 witness: a function with one non-reference and one reference
parameter, constructed against a total symbol table. -/
theorem construct_args_invariant_witness :
    ([⟨some 0, true⟩, ⟨some 0, false⟩] : List ArgBinding).length =
      ([⟨"a", false⟩, ⟨"r", true⟩] : List ParamInfo).length ∧
    ∀ i (hi : i < ([⟨"a", false⟩, ⟨"r", true⟩] : List ParamInfo).length)
        (hj : i < ([⟨some 0, true⟩, ⟨some 0, false⟩] : List ArgBinding).length),
      ((([⟨"a", false⟩, ⟨"r", true⟩] : List ParamInfo).get ⟨i, hi⟩).isRef = true →
        (([⟨some 0, true⟩, ⟨some 0, false⟩] : List ArgBinding).get ⟨i, hj⟩).parentBound
          = false) ∧
      (((([⟨some 0, true⟩, ⟨some 0, false⟩] : List ArgBinding).get ⟨i, hj⟩).sym.isSome
            = true ∧
          (([⟨"a", false⟩, ⟨"r", true⟩] : List ParamInfo).get ⟨i, hi⟩).isRef = false) →
        (([⟨some 0, true⟩, ⟨some 0, false⟩] : List ArgBinding).get ⟨i, hj⟩).parentBound
          = true) :=
  construct_args_invariant ⟨fun _ => some 0⟩
    ⟨[⟨"a", false⟩, ⟨"r", true⟩], false, false, false, false, false, false, false⟩
    ⟨0, [⟨some 0, true⟩, ⟨some 0, false⟩], noTaskSymbols⟩ rfl

/-- C8: `GenerateIR` on a function whose target representation already has
a body reports exactly one error (the redefinition diagnostic), emits
nothing, and performs none of the later steps — the previously emitted
representation is untouched and compilation continues. -/
theorem generateIR_redefinition_single_error (env : GenEnv) (inp : GenInput)
    (ec : Nat) (hsym : inp.symPresent = true)
    (hdef : inp.functionHasDefinition = true) :
    (generateIR env inp ec).errorCount = ec + 1 ∧
    (generateIR env inp ec).redefErrorReported = true ∧
    (generateIR env inp ec).internalEmitted = false ∧
    (generateIR env inp ec).appCreated = false ∧
    (generateIR env inp ec).appEmitted = false ∧
    (generateIR env inp ec).exportedFunctionRecorded = false ∧
    (generateIR env inp ec).markedAlwaysInline = false := by
  simp [generateIR, hsym, hdef, GenResult.init]

/-- C8 witness: a concrete redefinition (symbol present, target function
already has a body) at error count 0. -/
theorem generateIR_redefinition_single_error_witness :
    (generateIR ⟨false, false⟩
        ⟨true, true, ⟨[], false, false, false, false, false, false, false⟩,
          false, false, false, 0, 0⟩ 0).errorCount = 0 + 1 ∧
    (generateIR ⟨false, false⟩
        ⟨true, true, ⟨[], false, false, false, false, false, false, false⟩,
          false, false, false, 0, 0⟩ 0).redefErrorReported = true ∧
    (generateIR ⟨false, false⟩
        ⟨true, true, ⟨[], false, false, false, false, false, false, false⟩,
          false, false, false, 0, 0⟩ 0).internalEmitted = false ∧
    (generateIR ⟨false, false⟩
        ⟨true, true, ⟨[], false, false, false, false, false, false, false⟩,
          false, false, false, 0, 0⟩ 0).appCreated = false ∧
    (generateIR ⟨false, false⟩
        ⟨true, true, ⟨[], false, false, false, false, false, false, false⟩,
          false, false, false, 0, 0⟩ 0).appEmitted = false ∧
    (generateIR ⟨false, false⟩
        ⟨true, true, ⟨[], false, false, false, false, false, false, false⟩,
          false, false, false, 0, 0⟩ 0).exportedFunctionRecorded = false ∧
    (generateIR ⟨false, false⟩
        ⟨true, true, ⟨[], false, false, false, false, false, false, false⟩,
          false, false, false, 0, 0⟩ 0).markedAlwaysInline = false :=
  generateIR_redefinition_single_error ⟨false, false⟩
    ⟨true, true, ⟨[], false, false, false, false, false, false, false⟩,
      false, false, false, 0, 0⟩ 0 rfl rfl

/-- C5: in `GenerateIR`, for an export-qualified, extern-"C",
extern-"SYCL", externally-callable SPMD, or kernel function type, if the
error count observed at the post-internal-form check is zero, the
application-callable variant is created with no mask parameter and no name
mangling; on a name collision with an already-erred definition it is
erased silently (not emitted, no new error, nothing recorded), and
otherwise it is emitted and recorded as the symbol's `exportedFunction`
exactly when the error count is still zero afterwards. -/
theorem generateIR_app_variant (env : GenEnv) (inp : GenInput) (ec : Nat)
    (hkind : inp.ftype.isExported = true ∨ inp.ftype.isExternC = true ∨
      inp.ftype.isExternSYCL = true ∨ inp.ftype.isISPCExternal = true ∨
      inp.ftype.isISPCKernel = true)
    (herr : (generateIR env inp ec).errorsAfterInternal = some 0) :
    (generateIR env inp ec).appCreated = true ∧
    (generateIR env inp ec).appNoMaskParam = true ∧
    (generateIR env inp ec).appUnmangledName = true ∧
    (inp.nameCollides = true →
      (generateIR env inp ec).appErased = true ∧
      (generateIR env inp ec).appEmitted = false ∧
      (generateIR env inp ec).errorCount = 0 ∧
      (generateIR env inp ec).exportedFunctionRecorded = false) ∧
    (inp.nameCollides = false →
      (generateIR env inp ec).appErased = false ∧
      (generateIR env inp ec).appEmitted = true ∧
      ((generateIR env inp ec).errorCount = 0 →
        (generateIR env inp ec).exportedFunctionRecorded = true)) := by
  have hk : (inp.ftype.isExported || inp.ftype.isExternC || inp.ftype.isExternSYCL ||
      inp.ftype.isISPCExternal || inp.ftype.isISPCKernel) = true := by
    rcases hkind with h | h | h | h | h <;> simp [h]
  cases hs : inp.symPresent with
  | false => simp [generateIR, hs, GenResult.init] at herr
  | true =>
    cases hd : inp.functionHasDefinition with
    | true => simp [generateIR, hs, hd, GenResult.init] at herr
    | false =>
      cases hy : inp.ftype.isExternSYCL with
      | true => simp [generateIR, hs, hd, hy, GenResult.init] at herr
      | false =>
        rw [hy] at hk
        simp only [Bool.or_false] at hk
        simp only [generateIR, hs, hd, hy, Bool.true_eq_false, Bool.false_eq_true,
          if_false, if_true, reduceIte, Bool.or_false] at herr ⊢
        set ie := (if env.isXeTarget = true then !inp.ftype.isISPCKernel
          else !(inp.ftype.isExternC && env.mangleFunctionsWithTarget)) with hie
        set e1 := ec + (if ie = true then inp.internalEmitErrors else 0) with he1
        simp only [hk, reduceIte, if_true] at herr ⊢
        split at herr
        next h1 =>
          simp only [h1, reduceIte] at herr ⊢
          cases hc : inp.nameCollides with
          | true => simp [hc, GenResult.init]
          | false => simp [hc, GenResult.init, beq_iff_eq]
        next h1 =>
          simp [GenResult.init] at herr
          exact absurd herr h1

/-- C5 witness: an export-qualified function, no prior errors, no name
collision — the app variant is created, emitted and recorded. -/
theorem generateIR_app_variant_witness :
    (generateIR ⟨false, false⟩
        ⟨true, false, ⟨[], false, false, true, false, false, false, false⟩,
          false, false, false, 0, 0⟩ 0).appCreated = true ∧
    (generateIR ⟨false, false⟩
        ⟨true, false, ⟨[], false, false, true, false, false, false, false⟩,
          false, false, false, 0, 0⟩ 0).appNoMaskParam = true ∧
    (generateIR ⟨false, false⟩
        ⟨true, false, ⟨[], false, false, true, false, false, false, false⟩,
          false, false, false, 0, 0⟩ 0).appUnmangledName = true ∧
    ((false : Bool) = true →
      (generateIR ⟨false, false⟩
          ⟨true, false, ⟨[], false, false, true, false, false, false, false⟩,
            false, false, false, 0, 0⟩ 0).appErased = true ∧
      (generateIR ⟨false, false⟩
          ⟨true, false, ⟨[], false, false, true, false, false, false, false⟩,
            false, false, false, 0, 0⟩ 0).appEmitted = false ∧
      (generateIR ⟨false, false⟩
          ⟨true, false, ⟨[], false, false, true, false, false, false, false⟩,
            false, false, false, 0, 0⟩ 0).errorCount = 0 ∧
      (generateIR ⟨false, false⟩
          ⟨true, false, ⟨[], false, false, true, false, false, false, false⟩,
            false, false, false, 0, 0⟩ 0).exportedFunctionRecorded = false) ∧
    ((false : Bool) = false →
      (generateIR ⟨false, false⟩
          ⟨true, false, ⟨[], false, false, true, false, false, false, false⟩,
            false, false, false, 0, 0⟩ 0).appErased = false ∧
      (generateIR ⟨false, false⟩
          ⟨true, false, ⟨[], false, false, true, false, false, false, false⟩,
            false, false, false, 0, 0⟩ 0).appEmitted = true ∧
      ((generateIR ⟨false, false⟩
          ⟨true, false, ⟨[], false, false, true, false, false, false, false⟩,
            false, false, false, 0, 0⟩ 0).errorCount = 0 →
        (generateIR ⟨false, false⟩
            ⟨true, false, ⟨[], false, false, true, false, false, false, false⟩,
              false, false, false, 0, 0⟩ 0).exportedFunctionRecorded = true)) :=
  generateIR_app_variant ⟨false, false⟩
    ⟨true, false, ⟨[], false, false, true, false, false, false, false⟩,
      false, false, false, 0, 0⟩ 0 (Or.inl rfl) rfl

/-- C9: in the Xe kernel metadata loop, offsets start at the fixed
32-byte base; each argument's offset is first aligned to its scalar byte
size (smallest multiple of the scalar size not below the running offset);
and a vector argument whose offset-plus-size would cross a GRF granule
boundary (`offset % grf + size > grf`, computed in the code as
`(offset & (grf_size - 1)) + bytes > grf_size` for the power-of-two GRF
size) has its offset padded up to exactly the next granule boundary before
its size is accumulated, while a non-straddling vector argument is not
padded. -/
theorem kernel_arg_offset_alignment (k grfSize offset : Nat) (t : KernelArgType)
    (ts : List KernelArgType) (hgrf : grfSize = 2 ^ k) :
    (t.scalarSizeInBits / 8 ≠ 0 →
      kernelArgScalarAligned offset t % (t.scalarSizeInBits / 8) = 0 ∧
      offset ≤ kernelArgScalarAligned offset t ∧
      kernelArgScalarAligned offset t < offset + t.scalarSizeInBits / 8) ∧
    (t.isVector = true →
      (kernelArgScalarAligned offset t % grfSize + t.primitiveSizeInBits / 8 >
          grfSize →
        kernelArgAlignedOffset grfSize offset t % grfSize = 0 ∧
        kernelArgScalarAligned offset t ≤ kernelArgAlignedOffset grfSize offset t ∧
        kernelArgAlignedOffset grfSize offset t <
          kernelArgScalarAligned offset t + grfSize) ∧
      (kernelArgScalarAligned offset t % grfSize + t.primitiveSizeInBits / 8 ≤
          grfSize →
        kernelArgAlignedOffset grfSize offset t = kernelArgScalarAligned offset t)) ∧
    kernelArgStep grfSize offset t =
      kernelArgAlignedOffset grfSize offset t + kernelArgSizeBytes t ∧
    kernelArgOffsets grfSize (t :: ts) =
      kernelArgAlignedOffset grfSize 32 t ::
        kernelArgOffsetsFrom grfSize (kernelArgStep grfSize 32 t) ts := by
  have hpos : 0 < grfSize := by
    rw [hgrf]
    exact Nat.pos_pow_of_pos k (by norm_num)
  have hland : ∀ x : Nat, x &&& (grfSize - 1) = x % grfSize := by
    intro x
    rw [hgrf]
    exact Nat.and_pow_two_sub_one_eq_mod x k
  refine ⟨?_, ?_, rfl, rfl⟩
  · intro hb
    have hbpos : 0 < t.scalarSizeInBits / 8 := Nat.pos_of_ne_zero hb
    have hred : kernelArgScalarAligned offset t =
        alignTo offset (t.scalarSizeInBits / 8) := by
      unfold kernelArgScalarAligned
      simp [hb]
    rw [hred]
    exact ⟨alignTo_mod _ _, le_alignTo _ _ hbpos, alignTo_lt_add _ _ hbpos⟩
  · intro hv
    have hexp : kernelArgAlignedOffset grfSize offset t =
        (if kernelArgScalarAligned offset t % grfSize + t.primitiveSizeInBits / 8 >
            grfSize
         then alignTo (kernelArgScalarAligned offset t) grfSize
         else kernelArgScalarAligned offset t) := by
      unfold kernelArgAlignedOffset
      simp only [hv, if_true, reduceIte, hland]
    constructor
    · intro hcross
      rw [hexp, if_pos hcross]
      exact ⟨alignTo_mod _ _, le_alignTo _ _ hpos, alignTo_lt_add _ _ hpos⟩
    · intro hno
      rw [hexp, if_neg (by omega)]

/-- C9 witness: GRF size 32 (= 2^5), running offset 52, and a vector
argument of 16 bytes with 4-byte scalars: 52 % 32 + 16 = 36 > 32, a
straddle, so the offset is padded to the next granule boundary. -/
theorem kernel_arg_offset_alignment_witness :
    ((⟨32, 128, true⟩ : KernelArgType).scalarSizeInBits / 8 ≠ 0 →
      kernelArgScalarAligned 52 ⟨32, 128, true⟩ %
          ((⟨32, 128, true⟩ : KernelArgType).scalarSizeInBits / 8) = 0 ∧
      52 ≤ kernelArgScalarAligned 52 ⟨32, 128, true⟩ ∧
      kernelArgScalarAligned 52 ⟨32, 128, true⟩ <
        52 + (⟨32, 128, true⟩ : KernelArgType).scalarSizeInBits / 8) ∧
    ((⟨32, 128, true⟩ : KernelArgType).isVector = true →
      (kernelArgScalarAligned 52 ⟨32, 128, true⟩ % 32 +
          (⟨32, 128, true⟩ : KernelArgType).primitiveSizeInBits / 8 > 32 →
        kernelArgAlignedOffset 32 52 ⟨32, 128, true⟩ % 32 = 0 ∧
        kernelArgScalarAligned 52 ⟨32, 128, true⟩ ≤
          kernelArgAlignedOffset 32 52 ⟨32, 128, true⟩ ∧
        kernelArgAlignedOffset 32 52 ⟨32, 128, true⟩ <
          kernelArgScalarAligned 52 ⟨32, 128, true⟩ + 32) ∧
      (kernelArgScalarAligned 52 ⟨32, 128, true⟩ % 32 +
          (⟨32, 128, true⟩ : KernelArgType).primitiveSizeInBits / 8 ≤ 32 →
        kernelArgAlignedOffset 32 52 ⟨32, 128, true⟩ =
          kernelArgScalarAligned 52 ⟨32, 128, true⟩)) ∧
    kernelArgStep 32 52 ⟨32, 128, true⟩ =
      kernelArgAlignedOffset 32 52 ⟨32, 128, true⟩ +
        kernelArgSizeBytes ⟨32, 128, true⟩ ∧
    kernelArgOffsets 32 [⟨32, 128, true⟩] =
      kernelArgAlignedOffset 32 32 ⟨32, 128, true⟩ ::
        kernelArgOffsetsFrom 32 (kernelArgStep 32 32 ⟨32, 128, true⟩) [] :=
  kernel_arg_offset_alignment 5 32 52 ⟨32, 128, true⟩ [] (by norm_num)
